import Mathlib

set_option autoImplicit false

/-!
Shallow embedding of `src/lookup_key.rs`, the field-lookup resolver of
pydantic-core.

Python host values are modelled by `PyValue`; Python `getattr` and raw item
access are modelled with explicit absence/fault outcomes (`PyErr`).  Parsed
JSON trees are modelled by `JsonInput` (`JsonObject` is an association list,
matching the key-lookup interface the code uses).  The Rust result type
`PyResult<Option<(&str, T)>>` of the three retrieval operations, together
with the `unwrap` / `unreachable!` panics those operations may reach, is
modelled by `LookupResult`.
-/

/-- Python exception classes relevant to the lookup code.  The `PyTypeError`
values raised explicitly in `PathItem::from_py` are `typeError`; absence
outcomes of the host access primitives are `attributeError` / `keyError` /
`indexError`.  `configError` is modelled from the spec: the plain `py_error!`
macro comes from `build_tools`, which is not among the sources; the spec (§7)
describes those construction-time failures as configuration faults
(`ConfigError`), carrying the formatted message from the source. -/
inductive PyErr where
  | attributeError (msg : String)
  | keyError (msg : String)
  | indexError (msg : String)
  | typeError (msg : String)
  | configError (msg : String)
  deriving DecidableEq

/-- Keys of a Python dict that the lookup code can produce: strings (from
`Py<PyString>` keys) and non-negative ints (from `usize` path indices),
mirroring `ToPyObject for PathItem` in the source. -/
inductive PyKey where
  | s (key : String)
  | i (index : Nat)
  deriving DecidableEq

/-- Model of the Python host values the lookup code distinguishes:
strings (`PyString`), ints, lists (`PyList`, standing for any
int-indexable sequence), dicts (`PyDict`) and plain attribute-bearing
objects.  An attribute entry of an object may itself be a fault, modelling a
property whose getter raises. -/
inductive PyValue where
  | int (i : Int)
  | str (s : String)
  | list (items : List PyValue)
  | dict (entries : List (PyKey × PyValue))
  | obj (attrs : List (String × Except PyErr PyValue))

/-- Model of `PyDict`. -/
abbrev PyDict := List (PyKey × PyValue)

/-- Model of `JsonInput` from `crate::input` (float scalars are omitted;
they behave like the other scalar kinds in every match of the source). -/
inductive JsonInput where
  | null
  | bool (b : Bool)
  | int (i : Int)
  | str (s : String)
  | array (items : List JsonInput)
  | object (entries : List (String × JsonInput))

/-- Model of `JsonObject` from `crate::input`: a string-keyed map, used only
through `.get(key)`. -/
abbrev JsonObject := List (String × JsonInput)

/-- `PathItem` (source lines 216-223): one step of an alias path.  The
source stores the `Py<PyString>` next to the `String` purely as an interning
optimisation, so `S` keeps just the string. -/
inductive PathItem where
  | S (key : String)
  | I (index : Nat)
  deriving DecidableEq

/-- `LookupKey` (source lines 11-23).  The source's `type Path =
Vec<PathItem>` is spelled `List PathItem` here (the short name `Path`
already exists in Mathlib). -/
inductive LookupKey where
  | Simple (key : String)
  | Choice (key1 key2 : String)
  | PathChoices (paths : List (List PathItem))

/-- Outcome of one retrieval operation: the source's
`PyResult<Option<(&str, T)>>`, plus `panicked` for the `unwrap` /
`unreachable!` branches the operations contain. -/
inductive LookupResult (α : Type) where
  | found (key : String) (value : α)
  | notFound
  | fault (err : PyErr)
  | panicked

/-- Model of `PyDict::get_item`: plain association lookup, absence is
`none`, never an error. -/
def dict_get (d : PyDict) (k : PyKey) : Option PyValue :=
  d.lookup k

/-- Model of `cast_as::<PyString>().is_ok()`. -/
def PyValue.isStr : PyValue → Bool
  | .str _ => true
  | _ => false

/-- Model of `cast_as::<PyDict>().is_ok()`. -/
def PyValue.isDict : PyValue → Bool
  | .dict _ => true
  | _ => false

/-- Model of `ToPyObject for PathItem` (source lines 234-241): the Python
key a path item denotes. -/
def PathItem.to_object : PathItem → PyKey
  | .S key => .s key
  | .I index => .i index

/-- Model of the host primitive `PyAny::get_item` (Python `__getitem__`) on
the value kinds we model: dicts accept string and int keys (`keyError` on a
missing key), lists accept int indices (`indexError` out of range,
`typeError` for a string key), strings accept int indices (one-character
result), and every other value is unsubscriptable (`typeError`). -/
def py_get_item_raw : PyValue → PathItem → Except PyErr PyValue
  | .dict entries, item =>
      match dict_get entries item.to_object with
      | some v => .ok v
      | none => .error (.keyError "key not found")
  | .list items, .I index =>
      match items.get? index with
      | some v => .ok v
      | none => .error (.indexError "list index out of range")
  | .list _, .S _ => .error (.typeError "list indices must be integers")
  | .str s, .I index =>
      match s.toList.get? index with
      | some c => .ok (.str (String.mk [c]))
      | none => .error (.indexError "string index out of range")
  | .str _, .S _ => .error (.typeError "string indices must be integers")
  | _, _ => .error (.typeError "object is not subscriptable")

/-- Model of Python `getattr`: only `obj` values carry data attributes (an
entry may itself be a fault, modelling a raising property); every other
value resolves no attribute, raising `AttributeError`. -/
def getattr : PyValue → String → Except PyErr PyValue
  | .obj attrs, name =>
      match attrs.lookup name with
      | some r => r
      | none => .error (.attributeError name)
  | _, name => .error (.attributeError name)

/-- Model of `err.get_type(py).is_subclass_of::<PyAttributeError>()`. -/
def PyErr.isAttributeError : PyErr → Bool
  | .attributeError _ => true
  | _ => false

/-- The spec's notion of an "absence" failure (§4.3, §7): a missing
attribute, key or index, as opposed to any other fault. -/
def PyErr.isAbsenceError : PyErr → Bool
  | .attributeError _ => true
  | .keyError _ => true
  | .indexError _ => true
  | _ => false

/-- The free function `py_get_attrs` (source lines 318-332): wrapper around
`getattr` that turns attribute errors into `Ok(None)` and propagates every
other error.  (Renamed with a `_free` suffix: the source also has the method
`PathItem::py_get_attrs`, and in Lean the bare name inside that method's
definition would resolve to the method itself.) -/
def py_get_attrs_free (obj : PyValue) (attr_name : String) : Except PyErr (Option PyValue) :=
  match getattr obj attr_name with
  | .ok attr => .ok (some attr)
  | .error err => if err.isAttributeError then .ok none else .error err

/-- `PathItem::py_get_item` (source lines 265-273): refuse to index strings,
otherwise blindly try `get_item` and turn ANY error into `None` (the
source's `.ok()`). -/
def PathItem.py_get_item (item : PathItem) (py_any : PyValue) : Option PyValue :=
  if py_any.isStr then none
  else (py_get_item_raw py_any item).toOption

/-- `PathItem::get_key` (source lines 275-280): `none` models the
`unreachable!` branch for an int index. -/
def PathItem.get_key : PathItem → Option String
  | .S key => some key
  | .I _ => none

/-- `PathItem::py_get_attrs` (source lines 282-295): for a string key, item
access when the object is a dict, else attribute access; for an int index,
always item access. -/
def PathItem.py_get_attrs : PathItem → PyValue → Except PyErr (Option PyValue)
  | .S key, obj =>
      if obj.isDict then .ok (PathItem.py_get_item (.S key) obj)
      else py_get_attrs_free obj key
  | .I index, obj => .ok (PathItem.py_get_item (.I index) obj)

/-- `PathItem::json_obj_get` (source lines 308-313). -/
def PathItem.json_obj_get (item : PathItem) (json_obj : JsonObject) : Option JsonInput :=
  match item with
  | .S key => json_obj.lookup key
  | _ => none

/-- `PathItem::json_get` (source lines 297-306). -/
def PathItem.json_get (item : PathItem) (any_json : JsonInput) : Option JsonInput :=
  match any_json with
  | .object v_obj => item.json_obj_get v_obj
  | .array v_array =>
      match item with
      | .I index => v_array.get? index
      | _ => none
  | _ => none

/-- `path.first().unwrap().get_key()` as used by all three retrieval
operations: `none` models the panic (empty path or int first segment). -/
def first_key : List PathItem → Option String
  | [] => none
  | loc :: _ => loc.get_key

/-- The `try_fold` of `LookupKey::py_get_item` (source line 127): walk a
path segment by segment with `PathItem::py_get_item`, `none` as soon as one
segment yields `none`. -/
def walk_item : List PathItem → PyValue → Option PyValue
  | [], v => some v
  | loc :: rest, v =>
      match loc.py_get_item v with
      | some v2 => walk_item rest v2
      | none => none

/-- The inner loop of `LookupKey::py_get_attr` (source lines 156-165): walk
a path with `PathItem::py_get_attrs`; `Ok none` models `continue 'outer`
(path abandoned), `error` models the early `return Err(e)`. -/
def walk_attrs : List PathItem → PyValue → Except PyErr (Option PyValue)
  | [], v => .ok (some v)
  | loc :: rest, v =>
      match loc.py_get_attrs v with
      | .ok (some v2) => walk_attrs rest v2
      | .ok none => .ok none
      | .error e => .error e

/-- The `try_fold` of `LookupKey::json_get` (source line 203): walk the
remaining segments with `PathItem::json_get`. -/
def walk_json : List PathItem → JsonInput → Option JsonInput
  | [], v => some v
  | loc :: rest, v =>
      match loc.json_get v with
      | some v2 => walk_json rest v2
      | none => none

/-- Outcome of trying one whole path in `LookupKey::json_get` (source lines
191-207): first segment through `json_obj_get` on the object, the rest
through `json_get`.  (An empty path makes the operation itself panic; this
helper is only used to state properties, and returns `none` there.) -/
def json_path_res : List PathItem → JsonObject → Option JsonInput
  | [], _ => none
  | first :: tail, dict =>
      match first.json_obj_get dict with
      | some v => walk_json tail v
      | none => none

/-- The `PathChoices` loop of `LookupKey::py_get_item` (source lines
123-135). -/
def py_get_item_paths : List (List PathItem) → PyDict → LookupResult PyValue
  | [], _ => .notFound
  | path :: rest, dict =>
      match walk_item path (.dict dict) with
      | some v =>
          match first_key path with
          | some key => .found key v
          | none => .panicked
      | none => py_get_item_paths rest dict

/-- The `PathChoices` loop of `LookupKey::py_get_attr` (source lines
152-172). -/
def py_get_attr_paths : List (List PathItem) → PyValue → LookupResult PyValue
  | [], _ => .notFound
  | path :: rest, obj =>
      match walk_attrs path obj with
      | .ok (some v) =>
          match first_key path with
          | some key => .found key v
          | none => .panicked
      | .ok none => py_get_attr_paths rest obj
      | .error e => .fault e

/-- The `PathChoices` loop of `LookupKey::json_get` (source lines 189-211):
`path_iter.next().unwrap()` panics on an empty path, then the first segment
goes through `json_obj_get` and the rest through the `try_fold`. -/
def json_get_paths : List (List PathItem) → JsonObject → LookupResult JsonInput
  | [], _ => .notFound
  | path :: rest, dict =>
      match path with
      | [] => .panicked
      | first :: tail =>
          match first.json_obj_get dict with
          | none => json_get_paths rest dict
          | some v =>
              match walk_json tail v with
              | none => json_get_paths rest dict
              | some v2 =>
                  match first.get_key with
                  | some key => .found key v2
                  | none => .panicked

/-- `LookupKey::py_get_item` (source lines 110-137). -/
def LookupKey.py_get_item : LookupKey → PyDict → LookupResult PyValue
  | .Simple key, dict =>
      match dict_get dict (.s key) with
      | some value => .found key value
      | none => .notFound
  | .Choice key1 key2, dict =>
      match dict_get dict (.s key1) with
      | some value => .found key1 value
      | none =>
          match dict_get dict (.s key2) with
          | some value => .found key2 value
          | none => .notFound
  | .PathChoices path_choices, dict => py_get_item_paths path_choices dict

/-- `LookupKey::py_get_attr` (source lines 139-174). -/
def LookupKey.py_get_attr : LookupKey → PyValue → LookupResult PyValue
  | .Simple key, obj =>
      match py_get_attrs_free obj key with
      | .ok (some value) => .found key value
      | .ok none => .notFound
      | .error e => .fault e
  | .Choice key1 key2, obj =>
      match py_get_attrs_free obj key1 with
      | .ok (some value) => .found key1 value
      | .ok none =>
          match py_get_attrs_free obj key2 with
          | .ok (some value) => .found key2 value
          | .ok none => .notFound
          | .error e => .fault e
      | .error e => .fault e
  | .PathChoices path_choices, obj => py_get_attr_paths path_choices obj

/-- `LookupKey::json_get` (source lines 176-213). -/
def LookupKey.json_get : LookupKey → JsonObject → LookupResult JsonInput
  | .Simple key, dict =>
      match dict.lookup key with
      | some value => .found key value
      | none => .notFound
  | .Choice key1 key2, dict =>
      match dict.lookup key1 with
      | some value => .found key1 value
      | none =>
          match dict.lookup key2 with
          | some value => .found key2 value
          | none => .notFound
  | .PathChoices path_choices, dict => json_get_paths path_choices dict

/-- `PathItem::from_py` (source lines 250-263): a Python string gives `S`,
a Python int extractable as `usize` (hence non-negative) gives `I` except
at position 0, anything else (including a negative int, on which
`extract::<usize>` fails) is rejected. -/
def PathItem.from_py (index : Nat) (obj : PyValue) : Except PyErr PathItem :=
  match obj with
  | .str str_key => .ok (.S str_key)
  | .int int_key =>
      if 0 ≤ int_key then
        if index = 0 then
          .error (.typeError "The first item in an alias path must be a string")
        else .ok (.I int_key.toNat)
      else .error (.typeError "Alias path items must be with a string or int")
  | _ => .error (.typeError "Alias path items must be with a string or int")

/-- The `iter().enumerate().map(PathItem::from_py).collect::<PyResult<_>>`
of `LookupKey::path_choice` (source lines 96-101): positions are passed
along, the first error aborts the collection. -/
def from_py_enumerated : Nat → List PyValue → Except PyErr (List PathItem)
  | _, [] => .ok []
  | index, obj :: rest =>
      match PathItem.from_py index obj with
      | .error e => .error e
      | .ok item =>
          match from_py_enumerated (index + 1) rest with
          | .error e => .error e
          | .ok items => .ok (item :: items)

/-- `LookupKey::path_choice` (source lines 95-108): the element must be a
list (`extract::<&PyList>()?`), converts each element with its position,
and rejects an empty path. -/
def LookupKey.path_choice (obj : PyValue) : Except PyErr (List PathItem) :=
  match obj with
  | .list elems =>
      match from_py_enumerated 0 elems with
      | .error e => .error e
      | .ok path =>
          if path.isEmpty then
            .error (.configError "Each alias path must have at least one element")
          else .ok path
  | _ => .error (.typeError "cannot be converted to a list")

/-- The `map(path_choice).collect::<PyResult<Vec<Path>>>` of
`LookupKey::from_py` (source lines 72-75). -/
def map_path_choice : List PyValue → Except PyErr (List (List PathItem))
  | [] => .ok []
  | obj :: rest =>
      match LookupKey.path_choice obj with
      | .error e => .error e
      | .ok path =>
          match map_path_choice rest with
          | .error e => .error e
          | .ok paths => .ok (path :: paths)

/-- Model of `field.get_as::<String>(name)`: `ok none` when the key is
absent, the string when present with a string value, an extraction error
otherwise. -/
def get_as_str (field : PyDict) (name : String) : Except PyErr (Option String) :=
  match dict_get field (.s name) with
  | none => .ok none
  | some (.str s) => .ok (some s)
  | some _ => .error (.typeError "invalid type for string field")

/-- Model of `field.get_as::<&PyList>(name)`. -/
def get_as_list (field : PyDict) (name : String) : Except PyErr (Option (List PyValue)) :=
  match dict_get field (.s name) with
  | none => .ok none
  | some (.list items) => .ok (some items)
  | some _ => .error (.typeError "invalid type for list field")

/-- Model of `field.contains(name)`. -/
def field_contains (field : PyDict) (name : String) : Bool :=
  (dict_get field (.s name)).isSome

/-- `LookupKey::from_py` (source lines 46-89). -/
def LookupKey.from_py (field : PyDict) (alt_alias : Option String)
    (single_name plural_name : String) : Except PyErr (Option LookupKey) :=
  match get_as_str field single_name with
  | .error e => .error e
  | .ok (some aliasName) =>
      if field_contains field plural_name then
        .error (.configError ("'" ++ single_name ++ "' and '" ++ plural_name ++
          "' cannot be used together"))
      else
        match alt_alias with
        | some alt => .ok (some (.Choice aliasName alt))
        | none => .ok (some (.Simple aliasName))
  | .ok none =>
      match get_as_list field plural_name with
      | .error e => .error e
      | .ok (some aliases) =>
          match map_path_choice aliases with
          | .error e => .error e
          | .ok locs =>
              if locs.isEmpty then
                .error (.configError (plural_name ++ " must have at least one element"))
              else
                match alt_alias with
                | some alt => .ok (some (.PathChoices (locs ++ [[PathItem.S alt]])))
                | none => .ok (some (.PathChoices locs))
      | .ok none => .ok none

/-- `LookupKey::from_string` (source lines 91-93). -/
def LookupKey.from_string (key : String) : LookupKey :=
  LookupKey.Simple key

/-- A JSON node that is neither an object nor an array (the spec's
"scalar"). -/
def JsonInput.isScalar : JsonInput → Bool
  | .object _ => false
  | .array _ => false
  | _ => true

/-- The path invariant the spec states (§3): non-empty and starting with a
string key. -/
def good_path : List PathItem → Bool
  | .S _ :: _ => true
  | _ => false

/-! ## Helper lemmas shared by the claim theorems -/

theorem walk_item_append (p1 p2 : List PathItem) (v : PyValue) :
    walk_item (p1 ++ p2) v =
      match walk_item p1 v with
      | some v2 => walk_item p2 v2
      | none => none := by
  induction p1 generalizing v with
  | nil => rfl
  | cons loc rest ih =>
    simp only [List.cons_append, walk_item]
    cases loc.py_get_item v with
    | none => rfl
    | some v2 => exact ih v2

theorem py_get_item_paths_skip (pre rest : List (List PathItem)) (d : PyDict)
    (h : ∀ q ∈ pre, walk_item q (.dict d) = none) :
    py_get_item_paths (pre ++ rest) d = py_get_item_paths rest d := by
  induction pre with
  | nil => rfl
  | cons p pre ih =>
    have hp : walk_item p (.dict d) = none := h p (List.mem_cons_self p pre)
    simp only [List.cons_append, py_get_item_paths, hp]
    exact ih (fun q hq => h q (List.mem_cons_of_mem p hq))

theorem py_get_attr_paths_skip (pre rest : List (List PathItem)) (obj : PyValue)
    (h : ∀ q ∈ pre, walk_attrs q obj = .ok none) :
    py_get_attr_paths (pre ++ rest) obj = py_get_attr_paths rest obj := by
  induction pre with
  | nil => rfl
  | cons p pre ih =>
    have hp : walk_attrs p obj = .ok none := h p (List.mem_cons_self p pre)
    simp only [List.cons_append, py_get_attr_paths, hp]
    exact ih (fun q hq => h q (List.mem_cons_of_mem p hq))

theorem json_get_paths_skip (pre rest : List (List PathItem)) (jd : JsonObject)
    (hne : ∀ q ∈ pre, q ≠ [])
    (h : ∀ q ∈ pre, json_path_res q jd = none) :
    json_get_paths (pre ++ rest) jd = json_get_paths rest jd := by
  induction pre with
  | nil => rfl
  | cons p pre ih =>
    have hp : json_path_res p jd = none := h p (List.mem_cons_self p pre)
    have hpne : p ≠ [] := hne p (List.mem_cons_self p pre)
    have ih' := ih (fun q hq => hne q (List.mem_cons_of_mem p hq))
      (fun q hq => h q (List.mem_cons_of_mem p hq))
    cases p with
    | nil => exact absurd rfl hpne
    | cons first tail =>
      simp only [List.cons_append, json_get_paths]
      split
      · exact ih'
      · next v heq =>
        have hw : walk_json tail v = none := by
          simp only [json_path_res, heq] at hp
          exact hp
        simp only [hw]
        exact ih'

theorem py_get_item_paths_no_fault (paths : List (List PathItem)) (d : PyDict) (e : PyErr) :
    py_get_item_paths paths d ≠ .fault e := by
  induction paths with
  | nil => intro hc; exact LookupResult.noConfusion hc
  | cons p rest ih =>
    simp only [py_get_item_paths]
    cases walk_item p (.dict d) with
    | none => exact ih
    | some v =>
      cases first_key p with
      | some key => intro hc; exact LookupResult.noConfusion hc
      | none => intro hc; exact LookupResult.noConfusion hc

theorem py_get_item_no_fault (lk : LookupKey) (d : PyDict) (e : PyErr) :
    lk.py_get_item d ≠ .fault e := by
  cases lk with
  | Simple key =>
    simp only [LookupKey.py_get_item]
    cases dict_get d (.s key) <;> intro hc <;> exact LookupResult.noConfusion hc
  | Choice k1 k2 =>
    simp only [LookupKey.py_get_item]
    cases dict_get d (.s k1) with
    | some v => intro hc; exact LookupResult.noConfusion hc
    | none => cases dict_get d (.s k2) <;> intro hc <;> exact LookupResult.noConfusion hc
  | PathChoices paths => exact py_get_item_paths_no_fault paths d e

theorem json_get_paths_no_fault (paths : List (List PathItem)) (jd : JsonObject) (e : PyErr) :
    json_get_paths paths jd ≠ .fault e := by
  induction paths with
  | nil => intro hc; exact LookupResult.noConfusion hc
  | cons p rest ih =>
    cases p with
    | nil => intro hc; exact LookupResult.noConfusion hc
    | cons first tail =>
      simp only [json_get_paths]
      split
      · exact ih
      · split
        · exact ih
        · split
          · intro hc; exact LookupResult.noConfusion hc
          · intro hc; exact LookupResult.noConfusion hc

theorem json_get_no_fault (lk : LookupKey) (jd : JsonObject) (e : PyErr) :
    lk.json_get jd ≠ .fault e := by
  cases lk with
  | Simple key =>
    simp only [LookupKey.json_get]
    cases jd.lookup key <;> intro hc <;> exact LookupResult.noConfusion hc
  | Choice k1 k2 =>
    simp only [LookupKey.json_get]
    cases jd.lookup k1 with
    | some v => intro hc; exact LookupResult.noConfusion hc
    | none => cases jd.lookup k2 <;> intro hc <;> exact LookupResult.noConfusion hc
  | PathChoices paths => exact json_get_paths_no_fault paths jd e

theorem good_path_first (p : List PathItem) (h : good_path p = true) :
    ∃ k t, p = PathItem.S k :: t := by
  cases p with
  | nil => exact Bool.noConfusion h
  | cons head t =>
    cases head with
    | S k => exact ⟨k, t, rfl⟩
    | I i => exact Bool.noConfusion h

theorem from_py_zero_S (obj : PyValue) (item : PathItem)
    (h : PathItem.from_py 0 obj = .ok item) : ∃ k, item = .S k := by
  cases obj with
  | str s =>
    simp only [PathItem.from_py] at h
    injection h with h'
    exact ⟨s, h'.symm⟩
  | int i => by_cases hi : (0:Int) ≤ i <;> simp [PathItem.from_py, hi] at h
  | list items => exact Except.noConfusion h
  | dict entries => exact Except.noConfusion h
  | obj attrs => exact Except.noConfusion h

theorem from_py_enumerated_first (elems : List PyValue) (path : List PathItem)
    (h : from_py_enumerated 0 elems = .ok path) (hne : path ≠ []) :
    good_path path = true := by
  cases elems with
  | nil =>
    simp only [from_py_enumerated] at h
    injection h with h'
    exact absurd h'.symm hne
  | cons obj rest =>
    simp only [from_py_enumerated] at h
    cases hfp : PathItem.from_py 0 obj with
    | error e => rw [hfp] at h; exact Except.noConfusion h
    | ok item =>
      rw [hfp] at h
      cases hrest : from_py_enumerated 1 rest with
      | error e => rw [hrest] at h; exact Except.noConfusion h
      | ok items =>
        rw [hrest] at h
        injection h with h'
        obtain ⟨k, hk⟩ := from_py_zero_S obj item hfp
        subst hk
        rw [← h']
        rfl

theorem path_choice_good (obj : PyValue) (path : List PathItem)
    (h : LookupKey.path_choice obj = .ok path) : good_path path = true := by
  cases obj with
  | list elems =>
    simp only [LookupKey.path_choice] at h
    split at h
    · exact Except.noConfusion h
    · next p henum =>
      split at h
      · exact Except.noConfusion h
      · next hemp =>
        injection h with h'
        subst h'
        exact from_py_enumerated_first elems p henum
          (fun hn => hemp (by rw [hn]; rfl))
  | int i => exact Except.noConfusion h
  | str s => exact Except.noConfusion h
  | dict entries => exact Except.noConfusion h
  | obj attrs => exact Except.noConfusion h

theorem map_path_choice_good (elems : List PyValue) (locs : List (List PathItem))
    (h : map_path_choice elems = .ok locs) : ∀ p ∈ locs, good_path p = true := by
  induction elems generalizing locs with
  | nil =>
    simp only [map_path_choice] at h
    injection h with h'
    subst h'
    intro p hp
    exact absurd hp (List.not_mem_nil p)
  | cons obj rest ih =>
    simp only [map_path_choice] at h
    cases hpc : LookupKey.path_choice obj with
    | error e => rw [hpc] at h; exact Except.noConfusion h
    | ok path =>
      rw [hpc] at h
      cases hrest : map_path_choice rest with
      | error e => rw [hrest] at h; exact Except.noConfusion h
      | ok paths =>
        rw [hrest] at h
        injection h with h'
        subst h'
        intro p hp
        rcases List.mem_cons.mp hp with hp1 | hp2
        · subst hp1; exact path_choice_good obj p hpc
        · exact ih paths hrest p hp2

theorem from_py_paths_good (field : PyDict) (alt : Option String) (sn pn : String)
    (paths : List (List PathItem))
    (h : LookupKey.from_py field alt sn pn = .ok (some (.PathChoices paths))) :
    ∀ p ∈ paths, good_path p = true := by
  simp only [LookupKey.from_py] at h
  split at h
  · exact Except.noConfusion h
  · split at h
    · exact Except.noConfusion h
    · split at h <;> simp at h
  · split at h
    · exact Except.noConfusion h
    · next aliases hgl =>
      split at h
      · exact Except.noConfusion h
      · next locs hmp =>
        split at h
        · exact Except.noConfusion h
        · split at h
          · next a =>
            injection h with h'
            injection h' with h''
            injection h'' with h3
            intro p hp
            rw [← h3] at hp
            rcases List.mem_append.mp hp with hp1 | hp2
            · exact map_path_choice_good aliases locs hmp p hp1
            · have hps : p = [PathItem.S a] := List.mem_singleton.mp hp2
              subst hps
              rfl
          · injection h with h'
            injection h' with h''
            injection h'' with h3
            subst h3
            exact map_path_choice_good aliases _ hmp
    · simp at h

theorem py_get_item_paths_good_no_panic (paths : List (List PathItem)) (d : PyDict)
    (h : ∀ p ∈ paths, good_path p = true) :
    py_get_item_paths paths d ≠ .panicked := by
  induction paths with
  | nil => intro hc; exact LookupResult.noConfusion hc
  | cons p rest ih =>
    obtain ⟨k, t, hp⟩ := good_path_first p (h p (List.mem_cons_self p rest))
    subst hp
    simp only [py_get_item_paths, first_key, PathItem.get_key]
    cases walk_item (PathItem.S k :: t) (.dict d) with
    | some v => intro hc; exact LookupResult.noConfusion hc
    | none => exact ih (fun q hq => h q (List.mem_cons_of_mem _ hq))

theorem py_get_attr_paths_good_no_panic (paths : List (List PathItem)) (obj : PyValue)
    (h : ∀ p ∈ paths, good_path p = true) :
    py_get_attr_paths paths obj ≠ .panicked := by
  induction paths with
  | nil => intro hc; exact LookupResult.noConfusion hc
  | cons p rest ih =>
    obtain ⟨k, t, hp⟩ := good_path_first p (h p (List.mem_cons_self p rest))
    subst hp
    simp only [py_get_attr_paths, first_key, PathItem.get_key]
    cases walk_attrs (PathItem.S k :: t) obj with
    | error e => intro hc; exact LookupResult.noConfusion hc
    | ok o =>
      cases o with
      | some v => intro hc; exact LookupResult.noConfusion hc
      | none => exact ih (fun q hq => h q (List.mem_cons_of_mem _ hq))

theorem json_get_paths_good_no_panic (paths : List (List PathItem)) (jd : JsonObject)
    (h : ∀ p ∈ paths, good_path p = true) :
    json_get_paths paths jd ≠ .panicked := by
  induction paths with
  | nil => intro hc; exact LookupResult.noConfusion hc
  | cons p rest ih =>
    obtain ⟨k, t, hp⟩ := good_path_first p (h p (List.mem_cons_self p rest))
    subst hp
    simp only [json_get_paths, PathItem.get_key]
    split
    · exact ih (fun q hq => h q (List.mem_cons_of_mem _ hq))
    · split
      · exact ih (fun q hq => h q (List.mem_cons_of_mem _ hq))
      · intro hc; exact LookupResult.noConfusion hc

theorem py_get_item_no_panic (lk : LookupKey) (d : PyDict)
    (h : ∀ paths, lk = .PathChoices paths → ∀ p ∈ paths, good_path p = true) :
    lk.py_get_item d ≠ .panicked := by
  cases lk with
  | Simple key =>
    simp only [LookupKey.py_get_item]
    cases dict_get d (.s key) <;> intro hc <;> exact LookupResult.noConfusion hc
  | Choice k1 k2 =>
    simp only [LookupKey.py_get_item]
    cases dict_get d (.s k1) with
    | some v => intro hc; exact LookupResult.noConfusion hc
    | none => cases dict_get d (.s k2) <;> intro hc <;> exact LookupResult.noConfusion hc
  | PathChoices paths => exact py_get_item_paths_good_no_panic paths d (h paths rfl)

theorem py_get_attr_no_panic (lk : LookupKey) (obj : PyValue)
    (h : ∀ paths, lk = .PathChoices paths → ∀ p ∈ paths, good_path p = true) :
    lk.py_get_attr obj ≠ .panicked := by
  cases lk with
  | Simple key =>
    simp only [LookupKey.py_get_attr]
    cases py_get_attrs_free obj key with
    | error e => intro hc; exact LookupResult.noConfusion hc
    | ok o => cases o <;> intro hc <;> exact LookupResult.noConfusion hc
  | Choice k1 k2 =>
    simp only [LookupKey.py_get_attr]
    cases py_get_attrs_free obj k1 with
    | error e => intro hc; exact LookupResult.noConfusion hc
    | ok o =>
      cases o with
      | some v => intro hc; exact LookupResult.noConfusion hc
      | none =>
        cases py_get_attrs_free obj k2 with
        | error e => intro hc; exact LookupResult.noConfusion hc
        | ok o2 => cases o2 <;> intro hc <;> exact LookupResult.noConfusion hc
  | PathChoices paths => exact py_get_attr_paths_good_no_panic paths obj (h paths rfl)

theorem json_get_no_panic (lk : LookupKey) (jd : JsonObject)
    (h : ∀ paths, lk = .PathChoices paths → ∀ p ∈ paths, good_path p = true) :
    lk.json_get jd ≠ .panicked := by
  cases lk with
  | Simple key =>
    simp only [LookupKey.json_get]
    cases jd.lookup key <;> intro hc <;> exact LookupResult.noConfusion hc
  | Choice k1 k2 =>
    simp only [LookupKey.json_get]
    cases jd.lookup k1 with
    | some v => intro hc; exact LookupResult.noConfusion hc
    | none => cases jd.lookup k2 <;> intro hc <;> exact LookupResult.noConfusion hc
  | PathChoices paths => exact json_get_paths_good_no_panic paths jd (h paths rfl)

/-! ## Spec §8 examples, as sanity checks of the embedding -/

theorem spec_example_simple :
    LookupKey.py_get_item (.Simple "a") [(.s "a", .int 1)] = .found "a" (.int 1) := rfl

theorem spec_example_path_index :
    LookupKey.py_get_item (.PathChoices [[.S "a", .I 0], [.S "b"]])
      [(.s "a", .list [.int 10, .int 20])] = .found "a" (.int 10) := rfl

theorem spec_example_path_fallback :
    LookupKey.py_get_item (.PathChoices [[.S "a", .I 0], [.S "b"]])
      [(.s "b", .int 5)] = .found "b" (.int 5) := rfl

theorem spec_example_string_refused :
    LookupKey.py_get_item (.PathChoices [[.S "a", .I 0], [.S "b"]])
      [(.s "a", .str "x"), (.s "b", .int 5)] = .found "b" (.int 5) := rfl

theorem spec_example_json_nested :
    LookupKey.json_get (.PathChoices [[.S "a", .S "b"]])
      [("a", .object [("b", .int 7)])] = .found "a" (.int 7) := rfl

theorem spec_example_json_array :
    LookupKey.json_get (.PathChoices [[.S "x", .I 1]])
      [("x", .array [.int 1, .int 2, .int 3])] = .found "x" (.int 2) := rfl

/-! ## Claim theorems -/

/-- C1: for every `PathChoices` resolver, each of the three retrieval
operations tries the configured paths in their stored order: every earlier
path whose walk yields not-found is abandoned in favour of the next, and
the first path whose segments all resolve returns immediately the pair
(string of that path's first segment, final value), whatever the later
paths would return. -/
theorem c1_first_path_wins
    (pre post : List (List PathItem)) (tail : List PathItem) (key : String)
    (d : PyDict) (obj : PyValue) (jd : JsonObject)
    (v1 v2 : PyValue) (v3 : JsonInput)
    (hne : ∀ q ∈ pre, q ≠ [])
    (h1 : ∀ q ∈ pre, walk_item q (.dict d) = none)
    (h2 : ∀ q ∈ pre, walk_attrs q obj = .ok none)
    (h3 : ∀ q ∈ pre, json_path_res q jd = none)
    (hp1 : walk_item (PathItem.S key :: tail) (.dict d) = some v1)
    (hp2 : walk_attrs (PathItem.S key :: tail) obj = .ok (some v2))
    (hp3 : json_path_res (PathItem.S key :: tail) jd = some v3) :
    LookupKey.py_get_item (.PathChoices (pre ++ (PathItem.S key :: tail) :: post)) d
      = .found key v1
    ∧ LookupKey.py_get_attr (.PathChoices (pre ++ (PathItem.S key :: tail) :: post)) obj
      = .found key v2
    ∧ LookupKey.json_get (.PathChoices (pre ++ (PathItem.S key :: tail) :: post)) jd
      = .found key v3 := by
  refine ⟨?_, ?_, ?_⟩
  · show py_get_item_paths (pre ++ (PathItem.S key :: tail) :: post) d = _
    rw [py_get_item_paths_skip pre _ d h1]
    simp only [py_get_item_paths, hp1, first_key, PathItem.get_key]
  · show py_get_attr_paths (pre ++ (PathItem.S key :: tail) :: post) obj = _
    rw [py_get_attr_paths_skip pre _ obj h2]
    simp only [py_get_attr_paths, hp2, first_key, PathItem.get_key]
  · show json_get_paths (pre ++ (PathItem.S key :: tail) :: post) jd = _
    rw [json_get_paths_skip pre _ jd hne h3]
    simp only [json_get_paths, PathItem.get_key]
    split
    · next heq =>
      simp only [json_path_res, heq] at hp3
      exact Option.noConfusion hp3
    · next v heq =>
      simp only [json_path_res, heq] at hp3
      simp only [hp3]

/-- Witness for C1: path 2 of three wins in all three representations. -/
theorem c1_first_path_wins_witness :
    LookupKey.py_get_item (.PathChoices [[.S "z"], [.S "a"], [.S "b"]])
        [(.s "a", .int 1), (.s "b", .int 2)] = .found "a" (.int 1)
    ∧ LookupKey.py_get_attr (.PathChoices [[.S "z"], [.S "a"], [.S "b"]])
        (.obj [("a", .ok (.int 1)), ("b", .ok (.int 2))]) = .found "a" (.int 1)
    ∧ LookupKey.json_get (.PathChoices [[.S "z"], [.S "a"], [.S "b"]])
        [("a", .int 1), ("b", .int 2)] = .found "a" (.int 1) := by
  have H := c1_first_path_wins [[.S "z"]] [[.S "b"]] [] "a"
    [(.s "a", .int 1), (.s "b", .int 2)]
    (.obj [("a", .ok (.int 1)), ("b", .ok (.int 2))])
    [("a", .int 1), ("b", .int 2)]
    (.int 1) (.int 1) (.int 1)
    (by intro q hq; rw [List.mem_singleton] at hq; subst hq; exact List.cons_ne_nil _ _)
    (by intro q hq; rw [List.mem_singleton] at hq; subst hq; rfl)
    (by intro q hq; rw [List.mem_singleton] at hq; subst hq; rfl)
    (by intro q hq; rw [List.mem_singleton] at hq; subst hq; rfl)
    rfl rfl rfl
  exact ⟨H.1, H.2.1, H.2.2⟩

/-- C2 counterexample: on a mapping input, the `Simple` access of
`py_get_attr` does not check mapping-likeness first: the value is a dict,
item access would find the value, yet the operation performs attribute
access and reports not-found. -/
theorem c2_counterexample :
    PyValue.isDict (.dict [(.s "a", .int 1)]) = true
    ∧ (PathItem.S "a").py_get_item (.dict [(.s "a", .int 1)]) = some (.int 1)
    ∧ LookupKey.py_get_attr (.Simple "a") (.dict [(.s "a", .int 1)]) = .notFound :=
  ⟨rfl, rfl, rfl⟩

/-- C2 amended: in the attribute-bearing-object retrieval operation the
mapping-check-first rule holds for every string-key segment access inside a
`PathChoices` walk (`PathItem::py_get_attrs`); the single access of
`Simple` and both accesses of `Choice` use attribute access by name
unconditionally, so on a dict input they find nothing. -/
theorem c2_mapping_check (key key2 : String) (v : PyValue) (d : PyDict) :
    PathItem.py_get_attrs (.S key) v =
      (if v.isDict then .ok ((PathItem.S key).py_get_item v)
       else py_get_attrs_free v key)
    ∧ LookupKey.py_get_attr (.Simple key) (.dict d) = .notFound
    ∧ LookupKey.py_get_attr (.Choice key key2) (.dict d) = .notFound :=
  ⟨rfl, rfl, rfl⟩

/-- C3 counterexample: applying the int-index segment of path `["a", 0]` to
the int value of attribute `a` faults with a `TypeError` — not an absence —
yet `py_get_attr` swallows it (the `.ok()` of `PathItem::py_get_item`),
abandons only that path and continues to the next path, instead of
propagating the fault and stopping. -/
theorem c3_counterexample :
    py_get_item_raw (.int 5) (.I 0) = .error (.typeError "object is not subscriptable")
    ∧ PyErr.isAbsenceError (.typeError "object is not subscriptable") = false
    ∧ LookupKey.py_get_attr (.PathChoices [[.S "a", .I 0], [.S "b"]])
        (.obj [("a", .ok (.int 5)), ("b", .ok (.int 7))]) = .found "b" (.int 7) :=
  ⟨rfl, rfl, rfl⟩

/-- C3 amended: in `py_get_attr`, an absent attribute yields not-found and
any other fault raised by attribute access propagates unchanged,
immediately stopping all remaining segment and path iteration; item
accesses (int-index segments, and string-key segments on a dict) never
propagate a fault — every item-access failure is converted to not-found
for the current path. -/
theorem c3_attr_fault_propagation
    (pre post : List (List PathItem)) (p : List PathItem) (obj : PyValue) (e : PyErr)
    (hpre : ∀ q ∈ pre, walk_attrs q obj = .ok none)
    (hp : walk_attrs p obj = .error e) :
    LookupKey.py_get_attr (.PathChoices (pre ++ p :: post)) obj = .fault e
    ∧ (∀ (v : PyValue) (name : String) (err : PyErr),
        getattr v name = .error err →
          py_get_attrs_free v name =
            (if err.isAttributeError then .ok none else .error err))
    ∧ (∀ (i : Nat) (w : PyValue),
        (PathItem.I i).py_get_attrs w = .ok ((PathItem.I i).py_get_item w))
    ∧ (∀ (k : String) (w : PyValue), w.isDict = true →
        (PathItem.S k).py_get_attrs w = .ok ((PathItem.S k).py_get_item w)) := by
  refine ⟨?_, ?_, ?_, ?_⟩
  · show py_get_attr_paths (pre ++ p :: post) obj = _
    rw [py_get_attr_paths_skip pre _ obj hpre]
    simp only [py_get_attr_paths, hp]
  · intro v name err hg
    simp only [py_get_attrs_free, hg]
  · intro i w
    rfl
  · intro k w hw
    simp [PathItem.py_get_attrs, hw]

/-- Witness for C3's amended theorem: a raising property on attribute `a`
makes the whole retrieval fault even though the later path `["b"]` would
resolve. -/
theorem c3_attr_fault_propagation_witness :
    LookupKey.py_get_attr (.PathChoices [[.S "z"], [.S "a"], [.S "b"]])
        (.obj [("a", .error (.typeError "boom")), ("b", .ok (.int 7))])
      = .fault (.typeError "boom") :=
  (c3_attr_fault_propagation [[.S "z"]] [[.S "b"]] [.S "a"]
    (.obj [("a", .error (.typeError "boom")), ("b", .ok (.int 7))])
    (.typeError "boom")
    (by intro q hq; rw [List.mem_singleton] at hq; subst hq; rfl)
    rfl).1

/-- C4: `Choice(name1, name2)` semantics in all three representations:
name1 wins whenever it resolves (whatever name2 would give), name2 is
attempted only when name1 is not-found, two not-founds give not-found, and
in the attribute representation (the only one whose accesses can fault) a
fault from either attempt propagates without falling back. -/
theorem c4_choice_semantics (k1 k2 : String)
    (d1 d2 d3 : PyDict) (v1 v2 : PyValue)
    (o1 o2 o3 o4 o5 : PyValue) (w1 w2 : PyValue) (e1 e2 : PyErr)
    (j1 j2 j3 : JsonObject) (u1 u2 : JsonInput)
    (hd1 : dict_get d1 (.s k1) = some v1)
    (hd2a : dict_get d2 (.s k1) = none) (hd2b : dict_get d2 (.s k2) = some v2)
    (hd3a : dict_get d3 (.s k1) = none) (hd3b : dict_get d3 (.s k2) = none)
    (ha1 : py_get_attrs_free o1 k1 = .ok (some w1))
    (ha2a : py_get_attrs_free o2 k1 = .ok none)
    (ha2b : py_get_attrs_free o2 k2 = .ok (some w2))
    (ha3a : py_get_attrs_free o3 k1 = .ok none)
    (ha3b : py_get_attrs_free o3 k2 = .ok none)
    (ha4 : py_get_attrs_free o4 k1 = .error e1)
    (ha5a : py_get_attrs_free o5 k1 = .ok none)
    (ha5b : py_get_attrs_free o5 k2 = .error e2)
    (hj1 : j1.lookup k1 = some u1)
    (hj2a : j2.lookup k1 = none) (hj2b : j2.lookup k2 = some u2)
    (hj3a : j3.lookup k1 = none) (hj3b : j3.lookup k2 = none) :
    LookupKey.py_get_item (.Choice k1 k2) d1 = .found k1 v1
    ∧ LookupKey.py_get_item (.Choice k1 k2) d2 = .found k2 v2
    ∧ LookupKey.py_get_item (.Choice k1 k2) d3 = .notFound
    ∧ LookupKey.py_get_attr (.Choice k1 k2) o1 = .found k1 w1
    ∧ LookupKey.py_get_attr (.Choice k1 k2) o2 = .found k2 w2
    ∧ LookupKey.py_get_attr (.Choice k1 k2) o3 = .notFound
    ∧ LookupKey.py_get_attr (.Choice k1 k2) o4 = .fault e1
    ∧ LookupKey.py_get_attr (.Choice k1 k2) o5 = .fault e2
    ∧ LookupKey.json_get (.Choice k1 k2) j1 = .found k1 u1
    ∧ LookupKey.json_get (.Choice k1 k2) j2 = .found k2 u2
    ∧ LookupKey.json_get (.Choice k1 k2) j3 = .notFound := by
  refine ⟨?_, ?_, ?_, ?_, ?_, ?_, ?_, ?_, ?_, ?_, ?_⟩ <;>
    simp only [LookupKey.py_get_item, LookupKey.py_get_attr, LookupKey.json_get,
      hd1, hd2a, hd2b, hd3a, hd3b, ha1, ha2a, ha2b, ha3a, ha3b, ha4, ha5a, ha5b,
      hj1, hj2a, hj2b, hj3a, hj3b]

/-- Witness for C4, covering all eleven situations at concrete inputs. -/
theorem c4_choice_semantics_witness :
    LookupKey.py_get_item (.Choice "a" "b") [(.s "a", .int 1), (.s "b", .int 2)]
      = .found "a" (.int 1)
    ∧ LookupKey.py_get_item (.Choice "a" "b") [(.s "b", .int 2)] = .found "b" (.int 2)
    ∧ LookupKey.py_get_item (.Choice "a" "b") [] = .notFound
    ∧ LookupKey.py_get_attr (.Choice "a" "b")
        (.obj [("a", .ok (.int 1)), ("b", .ok (.int 2))]) = .found "a" (.int 1)
    ∧ LookupKey.py_get_attr (.Choice "a" "b") (.obj [("b", .ok (.int 2))])
      = .found "b" (.int 2)
    ∧ LookupKey.py_get_attr (.Choice "a" "b") (.obj []) = .notFound
    ∧ LookupKey.py_get_attr (.Choice "a" "b")
        (.obj [("a", .error (.typeError "boom")), ("b", .ok (.int 2))])
      = .fault (.typeError "boom")
    ∧ LookupKey.py_get_attr (.Choice "a" "b") (.obj [("b", .error (.typeError "boom2"))])
      = .fault (.typeError "boom2")
    ∧ LookupKey.json_get (.Choice "a" "b") [("a", .int 1), ("b", .int 2)]
      = .found "a" (.int 1)
    ∧ LookupKey.json_get (.Choice "a" "b") [("b", .int 2)] = .found "b" (.int 2)
    ∧ LookupKey.json_get (.Choice "a" "b") [] = .notFound :=
  c4_choice_semantics "a" "b"
    [(.s "a", .int 1), (.s "b", .int 2)] [(.s "b", .int 2)] []
    (.int 1) (.int 2)
    (.obj [("a", .ok (.int 1)), ("b", .ok (.int 2))]) (.obj [("b", .ok (.int 2))])
    (.obj []) (.obj [("a", .error (.typeError "boom")), ("b", .ok (.int 2))])
    (.obj [("b", .error (.typeError "boom2"))])
    (.int 1) (.int 2) (.typeError "boom") (.typeError "boom2")
    [("a", .int 1), ("b", .int 2)] [("b", .int 2)] []
    (.int 1) (.int 2)
    rfl rfl rfl rfl rfl rfl rfl rfl rfl rfl rfl rfl rfl rfl rfl rfl rfl rfl

/-- C5: construction from a configuration with plural aliases present and a
secondary `alt_alias` present yields a `PathChoices` holding the converted
alias paths in their given order followed by exactly one extra path
`[StringKey alt]` in the last position. -/
theorem c5_alt_alias_last
    (field : PyDict) (alt sn pn : String) (aliases : List PyValue)
    (locs : List (List PathItem))
    (h1 : get_as_str field sn = .ok none)
    (h2 : get_as_list field pn = .ok (some aliases))
    (h3 : map_path_choice aliases = .ok locs)
    (h4 : locs ≠ []) :
    LookupKey.from_py field (some alt) sn pn =
      .ok (some (.PathChoices (locs ++ [[PathItem.S alt]]))) := by
  have h4' : locs.isEmpty = false := by
    cases locs with
    | nil => exact absurd rfl h4
    | cons a l => rfl
  simp [LookupKey.from_py, h1, h2, h3, h4']

/-- Witness for C5 at a concrete configuration. -/
theorem c5_alt_alias_last_witness :
    LookupKey.from_py [(.s "aliases", .list [.list [.str "x", .int 1]])] (some "b")
        "alias" "aliases" =
      .ok (some (.PathChoices ([[.S "x", .I 1]] ++ [[PathItem.S "b"]]))) :=
  c5_alt_alias_last [(.s "aliases", .list [.list [.str "x", .int 1]])] "b"
    "alias" "aliases" [.list [.str "x", .int 1]] [[.S "x", .I 1]]
    rfl rfl rfl (List.cons_ne_nil _ _)

/-- C6: in the mapping retrieval operation a string value is never indexed
into — any segment applied to a string yields not-found — so a walk
reaching a string with segments remaining fails, the path is abandoned in
favour of the next path, and the whole operation never produces a fault. -/
theorem c6_string_not_indexed
    (s : String) (p1 p2 p : List PathItem) (rest : List (List PathItem))
    (d : PyDict) (start : PyValue)
    (h1 : walk_item p1 start = some (.str s))
    (h2 : p2 ≠ [])
    (h3 : walk_item p (.dict d) = none) :
    (∀ it : PathItem, it.py_get_item (.str s) = none)
    ∧ walk_item (p1 ++ p2) start = none
    ∧ py_get_item_paths (p :: rest) d = py_get_item_paths rest d
    ∧ (∀ (lk : LookupKey) (d2 : PyDict) (e : PyErr), lk.py_get_item d2 ≠ .fault e) := by
  have hseg : ∀ it : PathItem, it.py_get_item (.str s) = none := fun it => rfl
  refine ⟨hseg, ?_, ?_, ?_⟩
  · rw [walk_item_append, h1]
    cases p2 with
    | nil => exact absurd rfl h2
    | cons loc rest2 => simp only [walk_item, hseg loc]
  · simp only [py_get_item_paths, h3]
  · intro lk d2 e
    exact py_get_item_no_fault lk d2 e

/-- Witness for C6: the spec's own example — `{"a": "x", "b": 5}` with paths
`[["a", 0], ["b"]]`: path 1 reaches the string and is abandoned without a
fault. -/
theorem c6_string_not_indexed_witness :
    walk_item ([PathItem.S "a"] ++ [PathItem.I 0])
        (.dict [(.s "a", .str "x"), (.s "b", .int 5)]) = none
    ∧ py_get_item_paths ([.S "a", .I 0] :: [[.S "b"]])
        [(.s "a", .str "x"), (.s "b", .int 5)]
      = py_get_item_paths [[.S "b"]] [(.s "a", .str "x"), (.s "b", .int 5)] := by
  have H := c6_string_not_indexed "x" [PathItem.S "a"] [PathItem.I 0]
    [.S "a", .I 0] [[.S "b"]]
    [(.s "a", .str "x"), (.s "b", .int 5)]
    (.dict [(.s "a", .str "x"), (.s "b", .int 5)])
    rfl (List.cons_ne_nil _ _) rfl
  exact ⟨H.2.1, H.2.2.1⟩

/-- C7: in the JSON retrieval operation a string-key segment can only
resolve on an object node and an int-index segment only on an array node
(`json_obj_get` refuses int segments outright); any segment applied to a
scalar node yields not-found; and the operation never produces a fault. -/
theorem c7_json_kinds
    (item it : PathItem) (j j2 : JsonInput) (v : JsonInput) (jo : JsonObject)
    (h : item.json_get j = some v) (hs : j2.isScalar = true) :
    ((∃ s, item = .S s ∧ ∃ o, j = .object o)
      ∨ (∃ i, item = .I i ∧ ∃ a, j = .array a))
    ∧ it.json_get j2 = none
    ∧ (∀ i : Nat, (PathItem.I i).json_obj_get jo = none)
    ∧ (∀ (lk : LookupKey) (jd : JsonObject) (e : PyErr), lk.json_get jd ≠ .fault e) := by
  refine ⟨?_, ?_, ?_, ?_⟩
  · cases j with
    | object o =>
      cases item with
      | S s => exact Or.inl ⟨s, rfl, o, rfl⟩
      | I i => exact absurd h (by simp [PathItem.json_get, PathItem.json_obj_get])
    | array a =>
      cases item with
      | I i => exact Or.inr ⟨i, rfl, a, rfl⟩
      | S s => exact absurd h (by simp [PathItem.json_get])
    | null => exact absurd h (by simp [PathItem.json_get])
    | bool b => exact absurd h (by simp [PathItem.json_get])
    | int i => exact absurd h (by simp [PathItem.json_get])
    | str s2 => exact absurd h (by simp [PathItem.json_get])
  · cases j2 with
    | object o => exact Bool.noConfusion hs
    | array a => exact Bool.noConfusion hs
    | null => rfl
    | bool b => rfl
    | int i => rfl
    | str s2 => rfl
  · intro i
    rfl
  · intro lk jd e
    exact json_get_no_fault lk jd e

/-- Witness for C7 at concrete nodes. -/
theorem c7_json_kinds_witness :
    ((∃ s, PathItem.S "a" = PathItem.S s
        ∧ ∃ o, JsonInput.object [("a", JsonInput.int 1)] = .object o)
      ∨ (∃ i, PathItem.S "a" = PathItem.I i
        ∧ ∃ a, JsonInput.object [("a", JsonInput.int 1)] = .array a))
    ∧ (PathItem.I 0).json_get (.int 5) = none := by
  have H := c7_json_kinds (.S "a") (.I 0) (.object [("a", .int 1)]) (.int 5)
    (.int 1) [("a", .int 1)] rfl rfl
  exact ⟨H.1, H.2.1⟩

/-- C8: every resolver that `from_py` produces satisfies the path
invariant — each path of a `PathChoices` is non-empty with a `StringKey`
first segment — and consequently none of the three retrieval operations
ever reaches the `first().unwrap()` / `get_key` panic or the
`unreachable!` branch. -/
theorem c8_no_panic (field : PyDict) (alt : Option String) (sn pn : String)
    (lk : LookupKey)
    (h : LookupKey.from_py field alt sn pn = .ok (some lk)) :
    (∀ paths, lk = .PathChoices paths → ∀ p ∈ paths, good_path p = true)
    ∧ (∀ d : PyDict, lk.py_get_item d ≠ .panicked)
    ∧ (∀ obj : PyValue, lk.py_get_attr obj ≠ .panicked)
    ∧ (∀ jd : JsonObject, lk.json_get jd ≠ .panicked) := by
  have hg : ∀ paths, lk = .PathChoices paths → ∀ p ∈ paths, good_path p = true := by
    intro paths hpc
    subst hpc
    exact from_py_paths_good field alt sn pn paths h
  exact ⟨hg, fun d => py_get_item_no_panic lk d hg,
    fun obj => py_get_attr_no_panic lk obj hg,
    fun jd => json_get_no_panic lk jd hg⟩

/-- Witness for C8 at a concretely constructed `PathChoices` resolver. -/
theorem c8_no_panic_witness :
    LookupKey.py_get_item (.PathChoices [[.S "x", .I 1], [.S "b"]]) [] ≠ .panicked
    ∧ LookupKey.py_get_attr (.PathChoices [[.S "x", .I 1], [.S "b"]]) (.int 0) ≠ .panicked
    ∧ LookupKey.json_get (.PathChoices [[.S "x", .I 1], [.S "b"]]) [] ≠ .panicked := by
  have H := c8_no_panic [(.s "aliases", .list [.list [.str "x", .int 1]])] (some "b")
    "alias" "aliases" (.PathChoices [[.S "x", .I 1], [.S "b"]]) rfl
  exact ⟨H.2.1 [], H.2.2.1 (.int 0), H.2.2.2 []⟩

/-- C9: when the single-alias option is present and the plural alias-path
option is present too, construction fails with the configuration error
naming both options, producing no resolver at all. -/
theorem c9_mutually_exclusive (field : PyDict) (alt : Option String)
    (sn pn : String) (aliasName : String)
    (h1 : get_as_str field sn = .ok (some aliasName))
    (h2 : field_contains field pn = true) :
    LookupKey.from_py field alt sn pn =
      .error (.configError ("'" ++ sn ++ "' and '" ++ pn ++
        "' cannot be used together")) := by
  simp [LookupKey.from_py, h1, h2]

/-- Witness for C9 at a concrete configuration carrying both options. -/
theorem c9_mutually_exclusive_witness :
    LookupKey.from_py [(.s "alias", .str "a"), (.s "aliases", .list [])] none
        "alias" "aliases" =
      .error (.configError ("'" ++ "alias" ++ "' and '" ++ "aliases" ++
        "' cannot be used together")) :=
  c9_mutually_exclusive [(.s "alias", .str "a"), (.s "aliases", .list [])] none
    "alias" "aliases" "a" rfl rfl

/-- C10 counterexample: a negative integer element is integer-typed, yet at
position 1 segment construction does not produce an `IntIndex` — the
source's `extract::<usize>` fails on a negative int and control falls
through to the unsupported-type error. -/
theorem c10_counterexample :
    PathItem.from_py 1 (.int (-1)) =
      .error (.typeError "Alias path items must be with a string or int")
    ∧ ∀ i : Nat, PathItem.from_py 1 (.int (-1)) ≠ .ok (.I i) := by
  have hbase : PathItem.from_py 1 (.int (-1)) =
      .error (.typeError "Alias path items must be with a string or int") := rfl
  refine ⟨hbase, fun i hcontra => ?_⟩
  rw [hbase] at hcontra
  exact Except.noConfusion hcontra

/-- C10 amended: segment construction produces `StringKey` for a string
element at any position; for a non-negative integer element it fails with
the first-item-must-be-string error at position 0 and produces `IntIndex`
at any later position; a negative integer element — like an element of any
non-string, non-int type — fails with the unsupported-type error at every
position. -/
theorem c10_segment_construction
    (s : String) (i : Int) (index : Nat) (j : Int)
    (xs : List PyValue) (entries : List (PyKey × PyValue))
    (attrs : List (String × Except PyErr PyValue))
    (hi : 0 ≤ i) (hindex : index ≠ 0) (hj : j < 0) :
    (∀ n : Nat, PathItem.from_py n (.str s) = .ok (.S s))
    ∧ PathItem.from_py 0 (.int i) =
        .error (.typeError "The first item in an alias path must be a string")
    ∧ PathItem.from_py index (.int i) = .ok (.I i.toNat)
    ∧ (∀ n : Nat, PathItem.from_py n (.int j) =
        .error (.typeError "Alias path items must be with a string or int"))
    ∧ (∀ n : Nat, PathItem.from_py n (.list xs) =
        .error (.typeError "Alias path items must be with a string or int"))
    ∧ (∀ n : Nat, PathItem.from_py n (.dict entries) =
        .error (.typeError "Alias path items must be with a string or int"))
    ∧ (∀ n : Nat, PathItem.from_py n (.obj attrs) =
        .error (.typeError "Alias path items must be with a string or int")) := by
  have hj' : ¬ (0 ≤ j) := not_le.mpr hj
  refine ⟨fun n => rfl, ?_, ?_, fun n => ?_, fun n => rfl, fun n => rfl, fun n => rfl⟩
  · simp [PathItem.from_py, hi]
  · simp [PathItem.from_py, hi, hindex]
  · simp [PathItem.from_py, hj']

/-- Witness for C10's amended theorem at concrete elements. -/
theorem c10_segment_construction_witness :
    PathItem.from_py 0 (.int 2) =
      .error (.typeError "The first item in an alias path must be a string")
    ∧ PathItem.from_py 3 (.int 2) = .ok (.I (2:Int).toNat)
    ∧ PathItem.from_py 0 (.int (-7)) =
      .error (.typeError "Alias path items must be with a string or int") := by
  have H := c10_segment_construction "a" 2 3 (-7) [] [] []
    (by decide) (by decide) (by decide)
  exact ⟨H.2.1, H.2.2.1, H.2.2.2.1 0⟩
